import Mathlib

/-!
Shallow embedding of the Portal-Launcher catalog pipeline (`src/main.js`).

The program scans a Steam installation: it locates installation roots
(`getSteamPaths`), resolves library directories (`getSteamLibraries`),
enumerates numeric user-profile directories (`getSteamUsers`), extracts
per-user playtime maps from `localconfig.vdf` (`readUserPlaytime`),
filters and classifies `appmanifest_*.acf` records (`isActualGame`,
state-flags check), merges playtime, fetches thumbnails best-effort
(`fetchThumbnail`), and emits one catalog entry per accepted manifest
(`fetchAllGames`).

JavaScript semantics that the source relies on are modelled explicitly:
string truthiness (only the empty string is falsy), `parseInt(s, 10)`
(`none` stands for `NaN`), `Number` coercion for `isNaN`, 32-bit
conversion for the `&` operator, and `||` defaulting.  Filesystem and
network effects are passed in as explicit oracle functions in `SteamEnv`.
-/

/-- Parsed VDF value as the JS object produced by `vdf.parse`: either a
string leaf or an object, represented as an ordered association list of
own properties (keys unique, as in a JS object). -/
inductive VDF where
  | str : String → VDF
  | obj : List (String × VDF) → VDF

/-- JS property access `v[k]`: case-sensitive lookup among an object's own
properties; `undefined` (`none`) on a string primitive (no such property
on `String.prototype`). -/
def VDF.get : VDF → String → Option VDF
  | .str _, _ => none
  | .obj kvs, k => kvs.lookup k

/-- The own-property list iterated by a JS `for in` loop (insertion
order).  Iterating a string primitive is not hit by any manifest the
source reads; it yields no object properties here. -/
def VDF.entries : VDF → List (String × VDF)
  | .str _ => []
  | .obj kvs => kvs

/-- JS truthiness of a possibly-`undefined` VDF value: `undefined` and the
empty string are falsy; every object and nonempty string is truthy. -/
def jsTruthy : Option VDF → Bool
  | none => false
  | some (.str s) => !(s == "")
  | some (.obj _) => true

/-- JS `a || b` on possibly-`undefined` VDF values. -/
def jsOr (a b : Option VDF) : Option VDF :=
  if jsTruthy a then a else b

/-- JS `String(v)` as used by `parseInt` on a non-string argument. -/
def jsToString : VDF → String
  | .str s => s
  | .obj _ => "[object Object]"

/-- Whitespace skipped by JS `parseInt` / trimmed by `String.trim` and
`Number` coercion. -/
def isJsWs (c : Char) : Bool :=
  c == ' ' || c == '\t' || c == '\n' || c == '\r' || c == '\x0b' || c == '\x0c'

/-- JS `String.prototype.trim`. -/
def trimJs (cs : List Char) : List Char :=
  ((cs.dropWhile isJsWs).reverse.dropWhile isJsWs).reverse

/-- JS `parseInt(s, 10)`; `none` models `NaN`.  Skips leading whitespace,
takes an optional sign, then the longest digit run, ignoring trailing
characters. -/
def parseIntJS (s : String) : Option Int :=
  let t := s.data.dropWhile isJsWs
  let sgnRest : Int × List Char :=
    match t with
    | '-' :: r => (-1, r)
    | '+' :: r => (1, r)
    | r => (1, r)
  let ds := sgnRest.2.takeWhile Char.isDigit
  if ds.isEmpty then none
  else some (sgnRest.1 * ((ds.foldl (fun acc c => acc * 10 + (c.toNat - 48)) 0 : Nat) : Int))

/-- Hexadecimal digit accepted by JS `Number("0x…")`. -/
def isHexDigitJs (c : Char) : Bool :=
  c.isDigit || ('a' ≤ c && c ≤ 'f') || ('A' ≤ c && c ≤ 'F')

/-- The characters of `"Infinity"`. -/
def infinityChars : List Char := ['I', 'n', 'f', 'i', 'n', 'i', 't', 'y']

/-- Digit run split: `(cs.takeWhile isDigit, cs.dropWhile isDigit)`. -/
def takeDigits (cs : List Char) : List Char × List Char :=
  (cs.takeWhile Char.isDigit, cs.dropWhile Char.isDigit)

/-- Exponent suffix of a JS numeric literal (`e5`, `E+3`, …), or end of
input. -/
def parseExpPart : List Char → Bool
  | [] => true
  | c :: rest =>
    if c == 'e' || c == 'E' then
      let rest2 : List Char :=
        match rest with
        | '+' :: r => r
        | '-' :: r => r
        | r => r
      let dr := takeDigits rest2
      !dr.1.isEmpty && dr.2.isEmpty
    else false

/-- Decimal mantissa (with optional fraction and exponent) of a JS numeric
literal. -/
def parseMantissa (cs : List Char) : Bool :=
  let dr := takeDigits cs
  match dr.2 with
  | '.' :: rest2 =>
    let dr2 := takeDigits rest2
    (!dr.1.isEmpty || !dr2.1.isEmpty) && parseExpPart dr2.2
  | r => !dr.1.isEmpty && parseExpPart r

/-- Unsigned JS numeric literal: `Infinity`, hex/binary/octal prefix
forms, or a decimal mantissa. -/
def jsNumericUnsigned (cs : List Char) : Bool :=
  if cs == infinityChars then true
  else
    match cs with
    | c0 :: c1 :: r =>
      if c0 == '0' && (c1 == 'x' || c1 == 'X') then !r.isEmpty && r.all isHexDigitJs
      else if c0 == '0' && (c1 == 'b' || c1 == 'B') then
        !r.isEmpty && r.all (fun c => c == '0' || c == '1')
      else if c0 == '0' && (c1 == 'o' || c1 == 'O') then
        !r.isEmpty && r.all (fun c => ('0' ≤ c : Bool) && (c ≤ '7' : Bool))
      else parseMantissa (c0 :: c1 :: r)
    | _ => parseMantissa cs

/-- JS `isNaN(s)` for a string argument: `Number(s)` is `NaN`.  The empty
or all-whitespace string coerces to `0`, hence is NOT NaN. -/
def jsNumberIsNaN (s : String) : Bool :=
  match trimJs s.data with
  | [] => false
  | c :: r =>
    if c == '+' || c == '-' then !(parseMantissa r || r == infinityChars)
    else !(jsNumericUnsigned (c :: r))

/-- `path.join(a, b)` in the POSIX form the pipeline composes its paths
with (segments supplied by the source carry no trailing separators). -/
def pathJoin (a b : String) : String := a ++ "/" ++ b

/-- The source's `libPath.replace(/\\\\/g, '/')`: each run of two
consecutive backslashes becomes one forward slash. -/
def replaceDoubleBackslash : List Char → List Char
  | [] => []
  | '\\' :: '\\' :: rest => '/' :: replaceDoubleBackslash rest
  | c :: rest => c :: replaceDoubleBackslash rest

/-- JS `s.includes(pat)` on the underlying character lists: `pat` occurs
contiguously in the haystack. -/
def startsWithL : List Char → List Char → Bool
  | _, [] => true
  | [], _ :: _ => false
  | a :: as, b :: bs => a == b && startsWithL as bs

/-- JS substring containment `haystack.includes(needle)`. -/
def includesL : List Char → List Char → Bool
  | [], n => n.isEmpty
  | h :: t, n => startsWithL (h :: t) n || includesL t n

/-- JS `s.includes(pat)` on strings. -/
def strIncludes (s pat : String) : Bool := includesL s.data pat.data

/-- ASCII lowering of one character, as `toLowerCase` acts on the
source's ASCII field values. -/
def lowerChar (c : Char) : Char :=
  if 'A' ≤ c && c ≤ 'Z' then Char.ofNat (c.toNat + 32) else c

/-- ASCII lowering as done by `toLowerCase` on the source's ASCII keys. -/
def lowerStr (s : String) : String := String.mk (s.data.map lowerChar)

/-- JS `f.startsWith(p)` on strings. -/
def strStartsWith (s pat : String) : Bool := startsWithL s.data pat.data

/-- JS `f.endsWith(p)` on strings. -/
def strEndsWith (s pat : String) : Bool :=
  startsWithL s.data.reverse pat.data.reverse

/-- `Array.from(new Set(l))`: first occurrence of each element, in order. -/
def jsSetDedup (l : List String) : List String :=
  l.foldl (fun acc x => if acc.contains x then acc else acc ++ [x]) []

/-- A possibly-`undefined` field coerced as the source's
`(x || '').toLowerCase()` idiom (manifest leaf fields are strings). -/
def lowerFieldStr (v : Option VDF) : String :=
  match jsOr v (some (.str "")) with
  | some w => lowerStr (jsToString w)
  | none => ""

/-- The fixed exclusion set `nonGameAppIds` from `isActualGame`. -/
def nonGameAppIds : List String :=
  ["228980", "1070560", "1391110", "1628350", "323370", "858280", "996510",
   "1054830", "1113280", "1245040", "1420170", "1887720", "2180100"]

/-- The fixed display-name substrings `nonGamePatterns` from
`isActualGame`. -/
def nonGamePatterns : List String :=
  ["steamworks", "redistributable", "redist", "vcredist", "directx",
   "runtime", "proton", "steam linux runtime", "common redistributables",
   "spacewar", "steam controller", "steam link", "benchmark", "demo",
   "beta", "test", "development", "sdk", "toolkit", "editor", "launcher",
   "updater"]

/-- The fixed install-directory substrings `nonGameDirPatterns` from
`isActualGame`. -/
def nonGameDirPatterns : List String :=
  ["steamworks", "redist", "runtime", "proton", "common_redist"]

/-- `isActualGame(appInfo, appid)` from `src/main.js`: the classification
heuristic rejecting tooling/runtime manifests. -/
def isActualGame (info : VDF) (appid : String) : Bool :=
  let name := lowerFieldStr (info.get "name")
  let installDir := lowerFieldStr (info.get "installdir")
  if nonGameAppIds.contains appid then false
  else if nonGamePatterns.any (fun pat => strIncludes name pat) then false
  else if nonGameDirPatterns.any (fun pat => strIncludes installDir pat) then false
  else if !jsTruthy (info.get "name")
       || (trimJs (jsToString ((info.get "name").getD (.str ""))).data).isEmpty then false
  else
    let toolType := lowerFieldStr (info.get "type")
    if toolType == "tool" || toolType == "config" || toolType == "application" then false
    else true

/-- The installed-state filter of `fetchAllGames`:
`parseInt(info.StateFlags || '0', 10)` followed by the JS 32-bit check
`(stateFlags & 4) !== 4` (a `NaN` left side converts to `0`). -/
def installedStateAccept (stateFlagsField : Option VDF) : Bool :=
  match parseIntJS (jsToString ((jsOr stateFlagsField (some (.str "0"))).getD (.str "0"))) with
  | none => false
  | some n => ((n % 4294967296).toNat &&& 4) == 4

/-- `userPlaytimes[user][appid] || 0` : map lookup with `0` for an absent
identifier. -/
def lookupMinutes (m : List (String × Int)) (appid : String) : Int :=
  match m.lookup appid with
  | some v => v
  | none => 0

/-- The user-maximum stage of the playtime merge:
`playtime = 0; for user: playtime = Math.max(playtime, userTime)`. -/
def userMaxPlaytime (ups : List (List (String × Int))) (appid : String) : Int :=
  ups.foldl (fun acc m => max acc (lookupMinutes m appid)) 0

/-- The full playtime merge of `fetchAllGames` (lines 306–322): user
maximum, then the `PlaytimeForever` fallback guarded by JS truthiness,
then the 30-day `LastUpdated` sentinel.  The value is a JS number;
`none` models `NaN`.  The float comparison
`(now - lastUpdated) / 86400 < 30` is exactly `now - lastUpdated <
2592000` on integer timestamps. -/
def mergedPlaytime (ups : List (List (String × Int))) (appid : String)
    (info : VDF) (now : Int) : Option Int :=
  let p0 : Option Int := some (userMaxPlaytime ups appid)
  let p1 : Option Int :=
    if p0 = some 0 ∧ jsTruthy (info.get "PlaytimeForever") = true then
      parseIntJS (jsToString ((info.get "PlaytimeForever").getD (.str "")))
    else p0
  if p1 = some 0 ∧ jsTruthy (info.get "LastUpdated") = true then
    match parseIntJS (jsToString ((info.get "LastUpdated").getD (.str ""))) with
    | some lu => if now - lu < 2592000 then some 1 else p1
    | none => p1
  else p1

/-- One entry of the remote appdetails response, after the `json[appid]`
lookup: its `success` flag and, if the `data` member is present, the
`header_image` member (itself possibly `undefined`). -/
structure ThumbEntry where
  success : Bool
  payload : Option (Option String)

/-- Outcome of the axios request in `fetchThumbnail`: the request threw
(timeout / network failure), or a JSON body whose `json[appid]` member is
absent or a `ThumbEntry`. -/
inductive ThumbResponse where
  | fail
  | resp : Option ThumbEntry → ThumbResponse

/-- `fetchThumbnail(appid)` from `src/main.js`, over the modelled response:
returns the header-image URL only when `json[appid]` exists with a truthy
`success`; a missing `data` member makes the member access throw, which
the surrounding `try` turns into `null`; every failure path yields
`null` (`none`). -/
def fetchThumbnail : ThumbResponse → Option String
  | .fail => none
  | .resp none => none
  | .resp (some e) =>
    if e.success then
      match e.payload with
      | none => none
      | some hi => hi
    else none

/-- The filesystem / network surface `src/main.js` touches, as oracles:
`fsExists p` is `fs.existsSync(p)`; `readdirFiles lib` is
`fs.readdirSync(lib)`; `userdirEntries p` lists `(name, isDirectory)` of
`fs.readdirSync(p)` with `statSync`; `parseFile p` is `parseVDF(p)`
(`none` = unreadable or unparsable); `thumbResp appid` is the remote
appdetails outcome; `now` is `Math.floor(Date.now() / 1000)`. -/
structure SteamEnv where
  fsExists : String → Bool
  readdirFiles : String → List String
  userdirEntries : String → List (String × Bool)
  parseFile : String → Option VDF
  thumbResp : String → ThumbResponse
  now : Int

/-- `getSteamPaths()` from `src/main.js`: the per-platform candidate
roots (environment defaults already substituted), filtered to those that
exist. -/
inductive Platform where
  | win32
  | darwin
  | linux
  | other

/-- Candidate installation roots per platform, then the existence
filter. -/
def getSteamPaths (plat : Platform) (programFiles programFilesX86 homedir : String)
    (fsExists : String → Bool) : List String :=
  (match plat with
   | .win32 => [pathJoin programFiles "Steam", pathJoin programFilesX86 "Steam"]
   | .darwin => [pathJoin (pathJoin (pathJoin homedir "Library") "Application Support") "Steam"]
   | .linux => [pathJoin (pathJoin homedir ".steam") "steam",
                pathJoin (pathJoin (pathJoin homedir ".local") "share") "Steam"]
   | .other => []).filter fsExists

/-- One step of the `for (const key in folders)` loop of
`getSteamLibraries`: numeric keys contribute
`path.join(libPath, 'steamapps')` when the declared path is a string
(after `folders[key].path || folders[key]`), backslash pairs are
rewritten, and the path exists. -/
def libraryFolderStep (env : SteamEnv) (libs : List String) (kv : String × VDF) :
    List String :=
  if !(jsNumberIsNaN kv.1) then
    match jsOr (kv.2.get "path") (some kv.2) with
    | some (.str s) =>
      let s2 := String.mk (replaceDoubleBackslash s.data)
      if env.fsExists s2 then libs ++ [pathJoin s2 "steamapps"] else libs
    | _ => libs
  else libs

/-- `getSteamLibraries(basePath)` from `src/main.js`. -/
def getSteamLibraries (env : SteamEnv) (basePath : String) : List String :=
  let libraries := [pathJoin basePath "steamapps"]
  let vdfPath := pathJoin (pathJoin basePath "steamapps") "libraryfolders.vdf"
  if !env.fsExists vdfPath then libraries
  else
    match env.parseFile vdfPath with
    | none => libraries
    | some parsed =>
      let folders :=
        (jsOr (jsOr (parsed.get "LibraryFolders") (parsed.get "libraryfolders"))
          (some (.obj []))).getD (.obj [])
      jsSetDedup (folders.entries.foldl (libraryFolderStep env) libraries)

/-- `getSteamUsers(basePath)` from `src/main.js`: numeric-named
subdirectories of `userdata` (the numeric test is JS `!isNaN(f)`). -/
def getSteamUsers (env : SteamEnv) (basePath : String) : List String :=
  let userdataPath := pathJoin basePath "userdata"
  if !env.fsExists userdataPath then []
  else ((env.userdirEntries userdataPath).filter
          (fun e => e.2 && !(jsNumberIsNaN e.1))).map (·.1)

/-- The per-title body of the `for (const appid in apps)` loop of
`readUserPlaytime`: keep positive parsed `Playtime`/`playtime` values. -/
def playtimeStep (acc : List (String × Int)) (kv : String × VDF) :
    List (String × Int) :=
  if jsTruthy (some kv.2) && jsTruthy (jsOr (kv.2.get "Playtime") (kv.2.get "playtime")) then
    match parseIntJS (jsToString ((jsOr (jsOr (kv.2.get "Playtime") (kv.2.get "playtime"))
        (some (.str "0"))).getD (.str "0"))) with
    | some n => if 0 < n then acc ++ [(kv.1, n)] else acc
    | none => acc
  else acc

/-- The structure walk of `readUserPlaytime` over an already-parsed
`localconfig.vdf` tree: four case-probed sections
(`UserLocalConfigStore → Software → Valve → Steam → Apps`), each probed
at exactly its TitleCase and all-lowercase spellings, then the per-title
playtime extraction. -/
def readUserPlaytimeTree (localConfig : VDF) : List (String × Int) :=
  let userStoreO := jsOr (localConfig.get "UserLocalConfigStore")
      (localConfig.get "userlocalconfigstore")
  if !jsTruthy userStoreO then []
  else
    let userStore := userStoreO.getD (.str "")
    let softwareO := jsOr (userStore.get "Software") (userStore.get "software")
    if !jsTruthy softwareO then []
    else
      let software := softwareO.getD (.str "")
      let valveO := jsOr (software.get "Valve") (software.get "valve")
      if !jsTruthy valveO then []
      else
        let valve := valveO.getD (.str "")
        let steamO := jsOr (valve.get "Steam") (valve.get "steam")
        if !jsTruthy steamO then []
        else
          let steam := steamO.getD (.str "")
          let appsO := jsOr (steam.get "Apps") (steam.get "apps")
          if !jsTruthy appsO then []
          else (appsO.getD (.str "")).entries.foldl playtimeStep []

/-- `readUserPlaytime(userPath)` from `src/main.js`: locate and parse
`config/localconfig.vdf`, then walk it; every failure yields the empty
map. -/
def readUserPlaytime (env : SteamEnv) (userPath : String) : List (String × Int) :=
  let localConfigPath := pathJoin (pathJoin userPath "config") "localconfig.vdf"
  if !env.fsExists localConfigPath then []
  else
    match env.parseFile localConfigPath with
    | none => []
    | some localConfig => readUserPlaytimeTree localConfig

/-- `path.join(lib, 'common', info.installdir || '')`: `path.join`
ignores an empty segment. -/
def joinCommon (lib dir : String) : String :=
  if dir == "" then pathJoin lib "common" else pathJoin (pathJoin lib "common") dir

/-- One catalog entry pushed by `fetchAllGames`.  `playtime` is a JS
number (`none` = `NaN`); `thumbnail` is `null`able. -/
structure CatalogEntry where
  appid : String
  title : String
  installDir : String
  playtime : Option Int
  thumbnail : Option String
  raw : VDF

/-- The per-manifest body of `fetchAllGames` (lines 280–339): parse the
manifest, require a truthy `AppState` with a truthy
`appid`/`AppID`, apply `isActualGame` and the installed-state filter,
merge playtime, attach the best-effort thumbnail and emit the entry;
`none` when the manifest is skipped. -/
def processManifest (env : SteamEnv) (ups : List (List (String × Int)))
    (lib mf : String) : Option CatalogEntry :=
  match env.parseFile (pathJoin lib mf) with
  | none => none
  | some data =>
    match data.get "AppState" with
    | none => none
    | some info =>
      if !jsTruthy (some info) then none
      else
        let appidO := jsOr (info.get "appid") (info.get "AppID")
        if !jsTruthy appidO then none
        else
          let appid := jsToString (appidO.getD (.str ""))
          if !isActualGame info appid then none
          else if !installedStateAccept (info.get "StateFlags") then none
          else some {
            appid := appid
            title := jsToString ((jsOr (info.get "name") (some (.str "Unknown"))).getD
              (.str "Unknown"))
            installDir := joinCommon lib
              (jsToString ((jsOr (info.get "installdir") (some (.str ""))).getD (.str "")))
            playtime := mergedPlaytime ups appid info env.now
            thumbnail := fetchThumbnail (env.thumbResp appid)
            raw := info }

/-- The per-root body of `fetchAllGames`: resolve libraries and users,
build each user's playtime map, then for each existing library filter
`appmanifest_*.acf` filenames and process each manifest. -/
def processBase (env : SteamEnv) (base : String) : List CatalogEntry :=
  let libraries := getSteamLibraries env base
  let users := getSteamUsers env base
  let ups := users.map (fun u => readUserPlaytime env (pathJoin (pathJoin base "userdata") u))
  libraries.flatMap (fun lib =>
    if !env.fsExists lib then []
    else
      ((env.readdirFiles lib).filter
        (fun f => strStartsWith f "appmanifest_" && strEndsWith f ".acf")).filterMap
        (processManifest env ups lib))

/-- `fetchAllGames()` from `src/main.js`, over the already-located Steam
bases (`getSteamPaths()`'s result): an empty base list returns the empty
catalog; otherwise each base's accepted manifests are appended in
order. -/
def fetchAllGames (env : SteamEnv) (steamBases : List String) : List CatalogEntry :=
  if steamBases.isEmpty then []
  else steamBases.flatMap (processBase env)

/-- The identifier of the manifest `fetchAllGames` would accept at
`lib/mf`, and `none` when that manifest is skipped: the per-manifest
checks of `processManifest` without the entry construction. -/
def manifestAppid (env : SteamEnv) (lib mf : String) : Option String :=
  match env.parseFile (pathJoin lib mf) with
  | none => none
  | some data =>
    match data.get "AppState" with
    | none => none
    | some info =>
      if !jsTruthy (some info) then none
      else
        let appidO := jsOr (info.get "appid") (info.get "AppID")
        if !jsTruthy appidO then none
        else
          let appid := jsToString (appidO.getD (.str ""))
          if !isActualGame info appid then none
          else if !installedStateAccept (info.get "StateFlags") then none
          else some appid

/-- The stream of identifiers of all accepted manifest files, in scan
order: one element per accepted manifest occurrence. -/
def appidTrace (env : SteamEnv) (steamBases : List String) : List String :=
  if steamBases.isEmpty then []
  else steamBases.flatMap (fun base =>
    (getSteamLibraries env base).flatMap (fun lib =>
      if !env.fsExists lib then []
      else
        ((env.readdirFiles lib).filter
          (fun f => strStartsWith f "appmanifest_" && strEndsWith f ".acf")).filterMap
          (manifestAppid env lib)))

/-- A manifest record whose `PlaytimeForever` field, when truthy, parses
to a non-negative integer. -/
def playtimeFieldSafe (info : VDF) : Prop :=
  jsTruthy (info.get "PlaytimeForever") = true →
    ∃ n, parseIntJS (jsToString ((info.get "PlaytimeForever").getD (VDF.str ""))) = some n ∧
      0 ≤ n

/-- The entry's playtime is a (non-`NaN`) non-negative integer. -/
def playtimeNonneg (e : CatalogEntry) : Bool :=
  match e.playtime with
  | some m => decide (0 ≤ m)
  | none => false

/-- Both `none`, or both `some` values related by `R`. -/
def optionRel (R : α → α → Prop) : Option α → Option α → Prop
  | none, none => True
  | some a, some b => R a b
  | _, _ => False

/-- Two catalog entries that agree on every field, except that the
thumbnail is only required to agree when the entry is not the designated
identifier `a`. -/
def entryAgrees (a : String) (e1 e2 : CatalogEntry) : Prop :=
  e1.appid = e2.appid ∧ e1.title = e2.title ∧ e1.installDir = e2.installDir ∧
    e1.playtime = e2.playtime ∧ e1.raw = e2.raw ∧
    (e1.appid ≠ a → e1.thumbnail = e2.thumbnail)

/-- A fully-installed, ordinary game manifest for identifier `10`. -/
def maniC5 : VDF :=
  .obj [("AppState", .obj [("appid", .str "10"), ("name", .str "Great Game"),
    ("installdir", .str "gg"), ("StateFlags", .str "4")])]

/-- A configuration whose descriptor declares a second library `x`, with
a manifest for the same identifier `10` present in both libraries. -/
def envC5 : SteamEnv where
  fsExists := fun p =>
    p == "b/steamapps/libraryfolders.vdf" || p == "x" || p == "b/steamapps" ||
      p == "x/steamapps"
  readdirFiles := fun _ => ["appmanifest_10.acf"]
  userdirEntries := fun _ => []
  parseFile := fun p =>
    if p == "b/steamapps/libraryfolders.vdf" then
      some (.obj [("LibraryFolders", .obj [("1", .str "x")])])
    else if p == "b/steamapps/appmanifest_10.acf" || p == "x/steamapps/appmanifest_10.acf" then
      some maniC5
    else none
  thumbResp := fun _ => .fail
  now := 0

/-- A fully-installed game manifest with a well-formed positive
`PlaytimeForever`. -/
def maniGood : VDF :=
  .obj [("AppState", .obj [("appid", .str "10"), ("name", .str "Great Game"),
    ("installdir", .str "gg"), ("StateFlags", .str "4"),
    ("PlaytimeForever", .str "7")])]

/-- A single-library configuration holding only `maniGood`. -/
def envGood : SteamEnv where
  fsExists := fun p => p == "b/steamapps"
  readdirFiles := fun _ => ["appmanifest_10.acf"]
  userdirEntries := fun _ => []
  parseFile := fun p => if p == "b/steamapps/appmanifest_10.acf" then some maniGood else none
  thumbResp := fun _ => .fail
  now := 0

/-- A fully-installed game manifest whose `PlaytimeForever` field is the
negative string `"-5"`. -/
def maniC6 : VDF :=
  .obj [("AppState", .obj [("appid", .str "10"), ("name", .str "Great Game"),
    ("installdir", .str "gg"), ("StateFlags", .str "4"),
    ("PlaytimeForever", .str "-5")])]

/-- A single-library configuration holding only `maniC6`. -/
def envC6 : SteamEnv where
  fsExists := fun p => p == "b/steamapps"
  readdirFiles := fun _ => ["appmanifest_10.acf"]
  userdirEntries := fun _ => []
  parseFile := fun p => if p == "b/steamapps/appmanifest_10.acf" then some maniC6 else none
  thumbResp := fun _ => .fail
  now := 0

/-- A `userdata` directory with one subdirectory named `1.5`. -/
def envC8 : SteamEnv where
  fsExists := fun p => p == "b/userdata"
  readdirFiles := fun _ => []
  userdirEntries := fun _ => [("1.5", true)]
  parseFile := fun _ => none
  thumbResp := fun _ => .fail
  now := 0

/-- A `userdata` directory with one subdirectory named `5`. -/
def envC8w : SteamEnv where
  fsExists := fun p => p == "b/userdata"
  readdirFiles := fun _ => []
  userdirEntries := fun _ => [("5", true)]
  parseFile := fun _ => none
  thumbResp := fun _ => .fail
  now := 0

/-- A `localconfig.vdf` tree whose section names are all upper-case. -/
def upperLC : VDF :=
  .obj [("USERLOCALCONFIGSTORE", .obj [("SOFTWARE", .obj [("VALVE", .obj [("STEAM",
    .obj [("APPS", .obj [("10", .obj [("PLAYTIME", .str "50")])])])])])])]

/-- The same `localconfig.vdf` tree with all-lowercase section names. -/
def lowerLC : VDF :=
  .obj [("userlocalconfigstore", .obj [("software", .obj [("valve", .obj [("steam",
    .obj [("apps", .obj [("10", .obj [("playtime", .str "50")])])])])])])]

/-- A second fully-installed game manifest, identifier `20`. -/
def maniW10 : VDF :=
  .obj [("AppState", .obj [("appid", .str "20"), ("name", .str "Other Game"),
    ("installdir", .str "og"), ("StateFlags", .str "4")])]

/-- One library holding accepted manifests for identifiers `10` and
`20`. -/
def envW10 : SteamEnv where
  fsExists := fun p => p == "b/steamapps"
  readdirFiles := fun _ => ["appmanifest_10.acf", "appmanifest_20.acf"]
  userdirEntries := fun _ => []
  parseFile := fun p =>
    if p == "b/steamapps/appmanifest_10.acf" then some maniC5
    else if p == "b/steamapps/appmanifest_20.acf" then some maniW10
    else none
  thumbResp := fun _ => .fail
  now := 0

/-- Thumbnail oracle where the lookup for identifier `10` fails. -/
def t1W10 : String → ThumbResponse := fun s =>
  if s == "10" then .fail else .resp (some ⟨true, some (some "u20")⟩)

/-- Thumbnail oracle where the lookup for identifier `10` succeeds. -/
def t2W10 : String → ThumbResponse := fun s =>
  if s == "10" then .resp (some ⟨true, some (some "u10")⟩)
  else .resp (some ⟨true, some (some "u20")⟩)

theorem and_four_eq_iff (m : Nat) : (m &&& 4 = 4) ↔ m.testBit 2 = true := by
  have h4 : (4 : Nat) = 2 ^ 2 := by norm_num
  rw [h4, Nat.and_two_pow]
  cases h : m.testBit 2 <;> simp

theorem parseIntJS_ne_empty {s : String} {n : Int} (h : parseIntJS s = some n) : s ≠ "" := by
  intro he
  subst he
  rw [show parseIntJS "" = none from by decide] at h
  cases h

/-- Claim C1 (amended): the installed-state filter accepts exactly when
the bit of value 4 is set in the 32-bit image of the parsed
installation-state-flags integer; flags 0, 1, 2 and 3 are rejected, and
flags 4 and 5 (which has bit 4 set) are both accepted. -/
theorem installedStateAccept_iff_bit4 :
    (∀ (s : String) (n : Int), parseIntJS s = some n →
      (installedStateAccept (some (VDF.str s)) = true ↔
        Nat.testBit ((n % 4294967296).toNat) 2 = true)) ∧
    installedStateAccept (some (VDF.str "0")) = false ∧
    installedStateAccept (some (VDF.str "1")) = false ∧
    installedStateAccept (some (VDF.str "2")) = false ∧
    installedStateAccept (some (VDF.str "3")) = false ∧
    installedStateAccept (some (VDF.str "4")) = true ∧
    installedStateAccept (some (VDF.str "5")) = true := by
  refine ⟨?_, by decide, by decide, by decide, by decide, by decide, by decide⟩
  intro s n h
  have hs : (s == "") = false := beq_eq_false_iff_ne.mpr (parseIntJS_ne_empty h)
  unfold installedStateAccept
  have hor : jsOr (some (VDF.str s)) (some (VDF.str "0")) = some (VDF.str s) := by
    simp [jsOr, jsTruthy, hs]
  rw [hor]
  simp only [Option.getD_some, jsToString, h]
  rw [show ((((n % 4294967296).toNat &&& 4) == 4) = true) ↔
        ((n % 4294967296).toNat &&& 4 = 4) from by simp]
  exact and_four_eq_iff _

/-- Witness for C1: a concrete flags integer with bit 4 clear. -/
theorem installedStateAccept_iff_bit4_witness :
    parseIntJS "12" = some 12 ∧
      (installedStateAccept (some (VDF.str "12")) = true ↔
        Nat.testBit (((12 : Int) % 4294967296).toNat) 2 = true) :=
  ⟨by decide, installedStateAccept_iff_bit4.1 "12" 12 (by decide)⟩

/-- Counterexample to claim C1 as stated: flags value 5 is accepted by
the installed-state filter (5 has the bit of value 4 set), while the
claim lists 5 among the rejected values. -/
theorem installedStateAccept_five : installedStateAccept (some (VDF.str "5")) = true := by
  decide

/-- Claim C2 (amended): the merged playtime is the user maximum whenever
that maximum is positive; when the maximum is zero and `PlaytimeForever`
is present (truthy), its parsed value — positive or not — becomes the
merged playtime so long as it is nonzero. -/
theorem mergedPlaytime_user_max (ups : List (List (String × Int))) (appid : String)
    (info : VDF) (now : Int) :
    (0 < userMaxPlaytime ups appid →
      mergedPlaytime ups appid info now = some (userMaxPlaytime ups appid)) ∧
    (userMaxPlaytime ups appid = 0 →
      jsTruthy (info.get "PlaytimeForever") = true →
      ∀ p : Int,
        parseIntJS (jsToString ((info.get "PlaytimeForever").getD (VDF.str ""))) = some p →
        p ≠ 0 → mergedPlaytime ups appid info now = some p) := by
  constructor
  · intro hpos
    unfold mergedPlaytime
    dsimp only
    have hc1 : ¬(some (userMaxPlaytime ups appid) = some (0 : Int) ∧
        jsTruthy (info.get "PlaytimeForever") = true) := by
      rintro ⟨h0, -⟩
      rw [Option.some.injEq] at h0
      omega
    rw [if_neg hc1]
    have hc2 : ¬(some (userMaxPlaytime ups appid) = some (0 : Int) ∧
        jsTruthy (info.get "LastUpdated") = true) := by
      rintro ⟨h0, -⟩
      rw [Option.some.injEq] at h0
      omega
    rw [if_neg hc2]
  · intro hmax htr p hp hne
    unfold mergedPlaytime
    dsimp only
    have hc1 : some (userMaxPlaytime ups appid) = some (0 : Int) ∧
        jsTruthy (info.get "PlaytimeForever") = true := ⟨by rw [hmax], htr⟩
    rw [if_pos hc1, hp]
    have hc2 : ¬(some p = some (0 : Int) ∧ jsTruthy (info.get "LastUpdated") = true) := by
      rintro ⟨h0, -⟩
      exact hne (Option.some.inj h0)
    rw [if_neg hc2]

/-- Witness for C2: the spec's own example — user A has 30 minutes, user
B has none, the manifest declares total-playtime 10; the merge yields the
user maximum 30. -/
theorem mergedPlaytime_user_max_witness :
    0 < userMaxPlaytime [[("X", 30)], []] "X" ∧
      userMaxPlaytime [[("X", 30)], []] "X" = 30 ∧
      mergedPlaytime [[("X", 30)], []] "X" (VDF.obj [("PlaytimeForever", VDF.str "10")]) 0 =
        some (userMaxPlaytime [[("X", 30)], []] "X") :=
  ⟨by decide, by decide,
    (mergedPlaytime_user_max [[("X", 30)], []] "X"
      (VDF.obj [("PlaytimeForever", VDF.str "10")]) 0).1 (by decide)⟩

/-- Counterexample to claim C2 as stated: with no user playtime (maximum
0) and a present but negative total-playtime field `"-7"`, the code still
assigns the field's value, so the merged playtime is `-7`, not the user
maximum `0` that the claim's "used only when … positive" would give. -/
theorem mergedPlaytime_negative_fallback :
    userMaxPlaytime [] "X" = 0 ∧
      mergedPlaytime [] "X" (VDF.obj [("PlaytimeForever", VDF.str "-7")]) 0 = some (-7) ∧
      ((-7 : Int) < 0) := by
  refine ⟨by decide, by decide, by decide⟩

theorem mergedPlaytime_of_zero (ups : List (List (String × Int))) (appid : String)
    (info : VDF) (now : Int)
    (hmax : userMaxPlaytime ups appid = 0)
    (hpf : jsTruthy (info.get "PlaytimeForever") = false ∨
      parseIntJS (jsToString ((info.get "PlaytimeForever").getD (VDF.str ""))) = some 0) :
    mergedPlaytime ups appid info now =
      (if jsTruthy (info.get "LastUpdated") = true then
        match parseIntJS (jsToString ((info.get "LastUpdated").getD (VDF.str ""))) with
        | some lu => if now - lu < 2592000 then some 1 else some 0
        | none => some (0 : Int)
       else some 0) := by
  unfold mergedPlaytime
  dsimp only
  have hP : (if some (userMaxPlaytime ups appid) = some (0 : Int) ∧
        jsTruthy (info.get "PlaytimeForever") = true then
        parseIntJS (jsToString ((info.get "PlaytimeForever").getD (VDF.str "")))
      else some (userMaxPlaytime ups appid)) = some (0 : Int) := by
    rcases hpf with h | h
    · rw [if_neg (by rintro ⟨-, ht⟩; rw [h] at ht; cases ht), hmax]
    · by_cases hc : some (userMaxPlaytime ups appid) = some (0 : Int) ∧
          jsTruthy (info.get "PlaytimeForever") = true
      · rw [if_pos hc, h]
      · rw [if_neg hc, hmax]
  rw [hP]
  by_cases hlu : jsTruthy (info.get "LastUpdated") = true
  · rw [if_pos ⟨rfl, hlu⟩, if_pos hlu]
  · rw [if_neg (by rintro ⟨-, ht⟩; exact hlu ht), if_neg hlu]

/-- Claim C3 (amended): for an accepted manifest with zero user maximum
whose `PlaytimeForever` field is absent (falsy) or parses to exactly 0,
a parseable `LastUpdated` timestamp strictly less than 30 days (2592000
seconds) before `now` yields the sentinel playtime 1; a timestamp at
least 30 days old, an absent field, or an unparsable field yields 0.  A
present `PlaytimeForever` that parses to a nonzero or non-numeric value
preempts the sentinel stage (see the counterexample). -/
theorem mergedPlaytime_sentinel (ups : List (List (String × Int))) (appid : String)
    (info : VDF) (now : Int)
    (hmax : userMaxPlaytime ups appid = 0)
    (hpf : jsTruthy (info.get "PlaytimeForever") = false ∨
      parseIntJS (jsToString ((info.get "PlaytimeForever").getD (VDF.str ""))) = some 0) :
    (∀ lu : Int, jsTruthy (info.get "LastUpdated") = true →
      parseIntJS (jsToString ((info.get "LastUpdated").getD (VDF.str ""))) = some lu →
      ((now - lu < 2592000 → mergedPlaytime ups appid info now = some 1) ∧
       (2592000 ≤ now - lu → mergedPlaytime ups appid info now = some 0))) ∧
    (jsTruthy (info.get "LastUpdated") = false →
      mergedPlaytime ups appid info now = some 0) ∧
    (parseIntJS (jsToString ((info.get "LastUpdated").getD (VDF.str ""))) = none →
      mergedPlaytime ups appid info now = some 0) := by
  rw [mergedPlaytime_of_zero ups appid info now hmax hpf]
  refine ⟨?_, ?_, ?_⟩
  · intro lu htr hplu
    rw [if_pos htr, hplu]
    dsimp only
    constructor
    · intro hlt
      rw [if_pos hlt]
    · intro hge
      rw [if_neg (not_lt.mpr hge)]
  · intro htr
    rw [if_neg (by rw [htr]; exact Bool.false_ne_true)]
  · intro hnone
    by_cases htr : jsTruthy (info.get "LastUpdated") = true
    · rw [if_pos htr, hnone]
    · rw [if_neg htr]

/-- Witness for C3: with no user data and no total-playtime, a timestamp
10 days old gives sentinel 1 and a timestamp 40 days old gives 0
(`now = 5000000`; 10 days = 864000 s, 40 days = 3456000 s). -/
theorem mergedPlaytime_sentinel_witness :
    mergedPlaytime [] "X" (VDF.obj [("LastUpdated", VDF.str "4136000")]) 5000000 = some 1 ∧
      mergedPlaytime [] "X" (VDF.obj [("LastUpdated", VDF.str "1544000")]) 5000000 = some 0 :=
  ⟨((mergedPlaytime_sentinel [] "X" (VDF.obj [("LastUpdated", VDF.str "4136000")]) 5000000
      (by decide) (Or.inl (by decide))).1 4136000 (by decide) (by decide)).1 (by decide),
   ((mergedPlaytime_sentinel [] "X" (VDF.obj [("LastUpdated", VDF.str "1544000")]) 5000000
      (by decide) (Or.inl (by decide))).1 1544000 (by decide) (by decide)).2 (by decide)⟩

/-- Counterexample to claim C3 as stated: with no user playtime, a
`PlaytimeForever` field of `"-7"` — present but not positive, hence not
a usable total-playtime — and a `LastUpdated` timestamp 10 days before
`now` (864000 < 2592000 s), the merged playtime is `-7` and not the
sentinel `1` the claim promises: the truthiness-guarded fallback assigns
the nonzero parsed value before the sentinel stage is reached. -/
theorem mergedPlaytime_sentinel_preempted :
    userMaxPlaytime [] "X" = 0 ∧
      ((5000000 : Int) - 4136000 < 2592000) ∧
      mergedPlaytime [] "X" (VDF.obj [("PlaytimeForever", VDF.str "-7"),
        ("LastUpdated", VDF.str "4136000")]) 5000000 = some (-7) ∧
      ¬ mergedPlaytime [] "X" (VDF.obj [("PlaytimeForever", VDF.str "-7"),
        ("LastUpdated", VDF.str "4136000")]) 5000000 = some 1 :=
  ⟨by decide, by decide, by decide, by decide⟩

/-- Counterexample to claim C4 as stated: on a tree with an all-caps
section key, lookups of two casings of the same logical key resolve to
different values (one present, one absent), and the playtime walk finds
the data only under the exact probed casings — an all-caps
`localconfig.vdf` yields an empty map while the lowercase spelling of the
same tree yields the playtime. -/
theorem vdfGet_case_sensitive :
    ((VDF.obj [("APPS", VDF.str "v")]).get "APPS").isSome = true ∧
      ((VDF.obj [("APPS", VDF.str "v")]).get "apps").isNone = true ∧
      readUserPlaytimeTree upperLC = [] ∧
      readUserPlaytimeTree lowerLC = [("10", 50)] :=
  ⟨by decide, by decide, by decide, by decide⟩

/-- Claim C4 (amended): tree lookup is case-sensitive JS property access;
the consumers compensate by probing exactly two spellings of each key
(`X.Key || X.key`), so a truthy value stored under either probed spelling
is found, while (per the counterexample) any other casing is not. -/
theorem probe_two_casings (k1 k2 : String) (val : VDF) (h : jsTruthy (some val) = true) :
    jsOr ((VDF.obj [(k1, val)]).get k1) ((VDF.obj [(k1, val)]).get k2) = some val ∧
      jsOr ((VDF.obj [(k2, val)]).get k1) ((VDF.obj [(k2, val)]).get k2) = some val := by
  constructor
  · have h1 : (VDF.obj [(k1, val)]).get k1 = some val := by
      simp [VDF.get, List.lookup]
    rw [h1]
    simp [jsOr, h]
  · by_cases he : k1 = k2
    · subst he
      have h1 : (VDF.obj [(k1, val)]).get k1 = some val := by
        simp [VDF.get, List.lookup]
      rw [h1]
      simp [jsOr, h]
    · have h1 : (VDF.obj [(k2, val)]).get k1 = none := by
        simp [VDF.get, List.lookup, beq_eq_false_iff_ne.mpr he]
      have h2 : (VDF.obj [(k2, val)]).get k2 = some val := by
        simp [VDF.get, List.lookup]
      rw [h1, h2]
      simp [jsOr, jsTruthy]

/-- Witness for C4 (amended): the `Apps` section stored under either
probed spelling is found by the probe pair. -/
theorem probe_two_casings_witness :
    jsOr ((VDF.obj [("Apps", VDF.obj [])]).get "Apps")
        ((VDF.obj [("Apps", VDF.obj [])]).get "apps") = some (VDF.obj []) ∧
      jsOr ((VDF.obj [("apps", VDF.obj [])]).get "Apps")
        ((VDF.obj [("apps", VDF.obj [])]).get "apps") = some (VDF.obj []) :=
  ⟨(probe_two_casings "Apps" "apps" (VDF.obj []) rfl).1,
   (probe_two_casings "Apps" "apps" (VDF.obj []) rfl).2⟩

theorem jsSetDedup_loop_nodup (l : List String) :
    ∀ acc : List String, acc.Nodup →
      (l.foldl (fun acc x => if acc.contains x then acc else acc ++ [x]) acc).Nodup := by
  induction l with
  | nil => exact fun acc h => h
  | cons x t ih =>
    intro acc h
    rw [List.foldl_cons]
    by_cases hc : acc.contains x = true
    · rw [if_pos hc]
      exact ih acc h
    · rw [if_neg hc]
      have hx : x ∉ acc := by simpa using hc
      exact ih _ (by simp [List.nodup_append, h, hx])

theorem mem_jsSetDedup_loop (l : List String) :
    ∀ (acc : List String) (x : String), x ∈ acc ∨ x ∈ l →
      x ∈ l.foldl (fun acc y => if acc.contains y then acc else acc ++ [y]) acc := by
  induction l with
  | nil =>
    intro acc x h
    rcases h with h | h
    · exact h
    · cases h
  | cons y t ih =>
    intro acc x h
    rw [List.foldl_cons]
    rcases h with h | h
    · refine ih _ x (Or.inl ?_)
      by_cases hc : acc.contains y = true
      · rw [if_pos hc]; exact h
      · rw [if_neg hc]; exact List.mem_append_left _ h
    · rcases List.mem_cons.mp h with rfl | h
      · refine ih _ x (Or.inl ?_)
        by_cases hc : acc.contains x = true
        · rw [if_pos hc]; simpa using hc
        · rw [if_neg hc]; exact List.mem_append_right _ (List.mem_singleton.mpr rfl)
      · exact ih _ x (Or.inr h)

theorem jsSetDedup_nodup (l : List String) : (jsSetDedup l).Nodup := by
  unfold jsSetDedup
  exact jsSetDedup_loop_nodup l [] List.nodup_nil

theorem mem_jsSetDedup (l : List String) (x : String) (h : x ∈ l) : x ∈ jsSetDedup l := by
  unfold jsSetDedup
  exact mem_jsSetDedup_loop l [] x (Or.inr h)

theorem mem_libFoldl (env : SteamEnv) (l : List (String × VDF)) :
    ∀ (acc : List String) (x : String), x ∈ acc →
      x ∈ l.foldl (libraryFolderStep env) acc := by
  induction l with
  | nil => exact fun acc x h => h
  | cons kv t ih =>
    intro acc x h
    rw [List.foldl_cons]
    refine ih _ x ?_
    unfold libraryFolderStep
    dsimp only
    repeat' split
    all_goals first
      | exact List.mem_append_left _ h
      | exact h

/-- Claim C7: the resolved library list is duplicate-free, and the
root's own primary manifest directory occurs in it exactly once — also
when the descriptor separately declares a path that normalizes to the
primary directory. -/
theorem getSteamLibraries_primary_once (env : SteamEnv) (base : String) :
    (getSteamLibraries env base).Nodup ∧
      List.count (pathJoin base "steamapps") (getSteamLibraries env base) = 1 := by
  unfold getSteamLibraries
  dsimp only
  by_cases h1 : (!env.fsExists (pathJoin (pathJoin base "steamapps") "libraryfolders.vdf"))
      = true
  · rw [if_pos h1]
    exact ⟨by simp, by simp⟩
  · rw [if_neg h1]
    cases hp : env.parseFile (pathJoin (pathJoin base "steamapps") "libraryfolders.vdf") with
    | none => exact ⟨by simp, by simp⟩
    | some parsed =>
      dsimp only
      refine ⟨jsSetDedup_nodup _, List.count_eq_one_of_mem (jsSetDedup_nodup _)
        (mem_jsSetDedup _ _ (mem_libFoldl env _ _ _ (List.mem_singleton.mpr rfl)))⟩

theorem digit_not_beq (c d : Char) (h : c.isDigit = true) (hd : d.isDigit = false) :
    (c == d) = false := by
  apply beq_eq_false_iff_ne.mpr
  intro he
  subst he
  rw [h] at hd
  cases hd

theorem digit_not_ws (c : Char) (h : c.isDigit = true) : isJsWs c = false := by
  unfold isJsWs
  rw [digit_not_beq c ' ' h (by decide), digit_not_beq c '\t' h (by decide),
    digit_not_beq c '\n' h (by decide), digit_not_beq c '\r' h (by decide),
    digit_not_beq c '\x0b' h (by decide), digit_not_beq c '\x0c' h (by decide)]
  rfl

theorem dropWhile_ws_digits (cs : List Char) (h : cs.all Char.isDigit = true) :
    cs.dropWhile isJsWs = cs := by
  cases cs with
  | nil => rfl
  | cons c t =>
    have hc : c.isDigit = true := by
      simp only [List.all_cons, Bool.and_eq_true] at h
      exact h.1
    rw [List.dropWhile_cons, digit_not_ws c hc]
    simp

theorem trimJs_digits (cs : List Char) (h : cs.all Char.isDigit = true) : trimJs cs = cs := by
  unfold trimJs
  rw [dropWhile_ws_digits cs h, dropWhile_ws_digits cs.reverse (by rwa [List.all_reverse]),
    List.reverse_reverse]

theorem takeDigits_all (cs : List Char) (h : cs.all Char.isDigit = true) :
    takeDigits cs = (cs, []) := by
  unfold takeDigits
  rw [List.takeWhile_eq_self_iff.mpr (List.all_eq_true.mp h),
    List.dropWhile_eq_nil_iff.mpr (List.all_eq_true.mp h)]

theorem parseMantissa_digits (cs : List Char) (hne : cs ≠ [])
    (h : cs.all Char.isDigit = true) : parseMantissa cs = true := by
  obtain ⟨c, t, rfl⟩ := List.exists_cons_of_ne_nil hne
  unfold parseMantissa
  rw [takeDigits_all _ h]
  dsimp only
  rfl

theorem jsNumericUnsigned_digits (c : Char) (t : List Char)
    (h : (c :: t).all Char.isDigit = true) : jsNumericUnsigned (c :: t) = true := by
  have hc : c.isDigit = true := by
    simp only [List.all_cons, Bool.and_eq_true] at h
    exact h.1
  unfold jsNumericUnsigned
  have hinf : ((c :: t) == infinityChars) = false := by
    apply beq_eq_false_iff_ne.mpr
    intro he
    rw [show infinityChars = 'I' :: ['n', 'f', 'i', 'n', 'i', 't', 'y'] from rfl] at he
    injection he with h1 h2
    rw [h1] at hc
    exact absurd hc (by decide)
  rw [if_neg (by rw [hinf]; exact Bool.false_ne_true)]
  cases t with
  | nil =>
    dsimp only
    exact parseMantissa_digits [c] (by simp) h
  | cons c1 t2 =>
    have hc1 : c1.isDigit = true := by
      simp only [List.all_cons, Bool.and_eq_true] at h
      exact h.2.1
    dsimp only
    rw [digit_not_beq c1 'x' hc1 (by decide), digit_not_beq c1 'X' hc1 (by decide),
      digit_not_beq c1 'b' hc1 (by decide), digit_not_beq c1 'B' hc1 (by decide),
      digit_not_beq c1 'o' hc1 (by decide), digit_not_beq c1 'O' hc1 (by decide)]
    simp only [Bool.or_self, Bool.and_false, Bool.false_eq_true, if_false]
    exact parseMantissa_digits (c :: c1 :: t2) (by simp) h

theorem jsNumberIsNaN_digits (s : String) (hne : s.data ≠ [])
    (h : s.data.all Char.isDigit = true) : jsNumberIsNaN s = false := by
  unfold jsNumberIsNaN
  rw [trimJs_digits s.data h]
  obtain ⟨c, t, hct⟩ := List.exists_cons_of_ne_nil hne
  rw [hct]
  dsimp only
  have hc : c.isDigit = true := by
    rw [hct] at h
    simp only [List.all_cons, Bool.and_eq_true] at h
    exact h.1
  rw [digit_not_beq c '+' hc (by decide), digit_not_beq c '-' hc (by decide)]
  simp only [Bool.or_self, Bool.false_eq_true, if_false]
  rw [jsNumericUnsigned_digits c t (by rw [hct] at h; exact h)]
  rfl

/-- Counterexample to claim C8 as stated: a `userdata` subdirectory named
`"1.5"` passes the JS `!isNaN` test and is returned by the user
enumerator, yet its name does not consist only of digits. -/
theorem getSteamUsers_fractional :
    getSteamUsers envC8 "b" = ["1.5"] ∧ ("1.5".data.all Char.isDigit) = false :=
  ⟨by decide, by decide⟩

/-- Claim C8 (amended): the user enumerator returns exactly the
directory entries of `userdata` whose name is numeric under JS `Number`
coercion (`!isNaN`) — this includes every purely numeric (digit-only)
name, but also names such as `"1.5"` that JS coerces to a number;
non-directories and `NaN`-named entries are excluded silently. -/
theorem getSteamUsers_numeric (env : SteamEnv) (base : String) :
    (∀ n : String, n ∈ getSteamUsers env base ↔
      (env.fsExists (pathJoin base "userdata") = true ∧
        (n, true) ∈ env.userdirEntries (pathJoin base "userdata") ∧
        jsNumberIsNaN n = false)) ∧
    (∀ s : String, s.data ≠ [] → s.data.all Char.isDigit = true →
      jsNumberIsNaN s = false) := by
  constructor
  · intro n
    unfold getSteamUsers
    dsimp only
    by_cases hfs : (!env.fsExists (pathJoin base "userdata")) = true
    · rw [if_pos hfs]
      have hfs2 : env.fsExists (pathJoin base "userdata") = false := by simpa using hfs
      simp [hfs2]
    · rw [if_neg hfs]
      have hfs2 : env.fsExists (pathJoin base "userdata") = true := by simpa using hfs
      simp only [List.mem_map, List.mem_filter, hfs2, true_and]
      constructor
      · rintro ⟨⟨a, b⟩, ⟨hmem, hp⟩, rfl⟩
        rw [Bool.and_eq_true] at hp
        obtain ⟨hb, hn⟩ := hp
        subst hb
        exact ⟨hmem, by simpa using hn⟩
      · rintro ⟨hmem, hn⟩
        exact ⟨(n, true), ⟨hmem, by simp [hn]⟩, rfl⟩
  · exact fun s => jsNumberIsNaN_digits s

/-- Witness for C8 (amended): a digit-named directory is returned, and a
digit string is non-NaN. -/
theorem getSteamUsers_numeric_witness :
    ("5" ∈ getSteamUsers envC8w "b") ∧ jsNumberIsNaN "123" = false :=
  ⟨((getSteamUsers_numeric envC8w "b").1 "5").mpr ⟨by decide, by decide, by decide⟩,
   (getSteamUsers_numeric envC8w "b").2 "123" (by decide) (by decide)⟩

theorem processManifest_appid (env : SteamEnv) (ups : List (List (String × Int)))
    (lib mf : String) :
    (processManifest env ups lib mf).map (·.appid) = manifestAppid env lib mf := by
  unfold processManifest manifestAppid
  cases env.parseFile (pathJoin lib mf) with
  | none => rfl
  | some data =>
    try dsimp only
    cases data.get "AppState" with
    | none => rfl
    | some info =>
      try dsimp only
      split
      · rfl
      · try dsimp only
        split
        · rfl
        · try dsimp only
          split
          · rfl
          · try dsimp only
            split
            · rfl
            · rfl

theorem fetchAllGames_map_appid (env : SteamEnv) (steamBases : List String) :
    (fetchAllGames env steamBases).map (·.appid) = appidTrace env steamBases := by
  unfold fetchAllGames appidTrace
  by_cases hb : steamBases.isEmpty = true
  · rw [if_pos hb, if_pos hb]
    rfl
  · rw [if_neg hb, if_neg hb]
    rw [List.map_flatMap]
    refine List.flatMap_congr ?_
    intro base _
    unfold processBase
    dsimp only
    rw [List.map_flatMap]
    refine List.flatMap_congr ?_
    intro lib _
    split
    · rfl
    · rw [List.map_filterMap]
      refine List.filterMap_congr ?_
      intro mf _
      exact processManifest_appid env _ lib mf

/-- Counterexample to claim C5 as stated: with a second library declared
in the descriptor and a manifest for identifier `10` present in both
libraries, the catalog contains the identifier twice — identifiers are
not unique for every configuration. -/
theorem fetchAllGames_duplicate_appid :
    (fetchAllGames envC5 ["b"]).map (·.appid) = ["10", "10"] ∧
      ¬ ((fetchAllGames envC5 ["b"]).map (·.appid)).Nodup :=
  ⟨by decide, by decide⟩

/-- Claim C5 (amended): the build emits exactly one entry per accepted
manifest file and performs no identifier-level deduplication: the
catalog's identifier sequence equals the accepted-manifest identifier
stream `appidTrace`, so identifiers are unique precisely when no
identifier is contributed by two accepted manifest files. -/
theorem fetchAllGames_appid_unique_iff_trace (env : SteamEnv) (steamBases : List String) :
    (fetchAllGames env steamBases).map (·.appid) = appidTrace env steamBases ∧
      ((appidTrace env steamBases).Nodup →
        ((fetchAllGames env steamBases).map (·.appid)).Nodup) := by
  refine ⟨fetchAllGames_map_appid env steamBases, ?_⟩
  intro h
  rw [fetchAllGames_map_appid env steamBases]
  exact h

/-- Witness for C5 (amended): in a configuration whose accepted-manifest
identifier stream is duplicate-free, the catalog identifiers are
duplicate-free. -/
theorem fetchAllGames_appid_unique_witness :
    (appidTrace envGood ["b"]).Nodup ∧
      ((fetchAllGames envGood ["b"]).map (·.appid)).Nodup :=
  ⟨by decide, (fetchAllGames_appid_unique_iff_trace envGood ["b"]).2 (by decide)⟩

theorem le_foldl_max (appid : String) (l : List (List (String × Int))) :
    ∀ a : Int, a ≤ l.foldl (fun acc m => max acc (lookupMinutes m appid)) a := by
  induction l with
  | nil => exact fun a => le_refl a
  | cons m t ih =>
    intro a
    rw [List.foldl_cons]
    exact le_trans (le_max_left a (lookupMinutes m appid)) (ih _)

theorem userMaxPlaytime_nonneg (ups : List (List (String × Int))) (appid : String) :
    0 ≤ userMaxPlaytime ups appid :=
  le_foldl_max appid ups 0

theorem mergedPlaytime_nonneg (ups : List (List (String × Int))) (appid : String)
    (info : VDF) (now : Int) (hf : playtimeFieldSafe info) :
    ∃ m : Int, mergedPlaytime ups appid info now = some m ∧ 0 ≤ m := by
  unfold mergedPlaytime
  dsimp only
  have hstage : ∀ v : Int, 0 ≤ v →
      ∃ m : Int, (if some v = some (0 : Int) ∧ jsTruthy (info.get "LastUpdated") = true then
        match parseIntJS (jsToString ((info.get "LastUpdated").getD (VDF.str ""))) with
        | some lu => if now - lu < 2592000 then some 1 else some v
        | none => some v
      else some v) = some m ∧ 0 ≤ m := by
    intro v hv
    by_cases hc : some v = some (0 : Int) ∧ jsTruthy (info.get "LastUpdated") = true
    · rw [if_pos hc]
      cases parseIntJS (jsToString ((info.get "LastUpdated").getD (VDF.str ""))) with
      | none => exact ⟨v, rfl, hv⟩
      | some lu =>
        by_cases hlt : now - lu < 2592000
        · exact ⟨1, by dsimp only; rw [if_pos hlt], by norm_num⟩
        · exact ⟨v, by dsimp only; rw [if_neg hlt], hv⟩
    · exact ⟨v, by rw [if_neg hc], hv⟩
  by_cases hc1 : some (userMaxPlaytime ups appid) = some (0 : Int) ∧
      jsTruthy (info.get "PlaytimeForever") = true
  · obtain ⟨n, hn, hn0⟩ := hf hc1.2
    rw [if_pos hc1, hn]
    exact hstage n hn0
  · rw [if_neg hc1]
    exact hstage (userMaxPlaytime ups appid) (userMaxPlaytime_nonneg ups appid)

theorem processManifest_playtime (env : SteamEnv) (ups : List (List (String × Int)))
    (lib mf : String) (e : CatalogEntry)
    (h : processManifest env ups lib mf = some e) :
    ∃ data info appid, env.parseFile (pathJoin lib mf) = some data ∧
      data.get "AppState" = some info ∧
      e.playtime = mergedPlaytime ups appid info env.now := by
  unfold processManifest at h
  cases hp : env.parseFile (pathJoin lib mf) with
  | none =>
    rw [hp] at h
    cases h
  | some data =>
    rw [hp] at h
    dsimp only at h
    cases hi : data.get "AppState" with
    | none =>
      rw [hi] at h
      cases h
    | some info =>
      rw [hi] at h
      dsimp only at h
      refine ⟨data, info, jsToString ((jsOr (info.get "appid") (info.get "AppID")).getD
        (VDF.str "")), rfl, hi, ?_⟩
      split at h
      · cases h
      · split at h
        · cases h
        · split at h
          · cases h
          · split at h
            · cases h
            · rw [← Option.some.inj h]

/-- Claim C6 (amended): every emitted entry's playtime is a non-negative
integer provided each parsed manifest's `PlaytimeForever` field, when
present (truthy), parses to a non-negative integer; without that proviso
a negative or non-numeric field flows into the entry (see the
counterexample). -/
theorem fetchAllGames_playtime_nonneg (env : SteamEnv) (steamBases : List String)
    (hsafe : ∀ p v info, env.parseFile p = some v → v.get "AppState" = some info →
      playtimeFieldSafe info) :
    (fetchAllGames env steamBases).all playtimeNonneg = true := by
  rw [List.all_eq_true]
  intro e he
  unfold fetchAllGames at he
  split at he
  · cases he
  · rw [List.mem_flatMap] at he
    obtain ⟨base, -, he⟩ := he
    unfold processBase at he
    dsimp only at he
    rw [List.mem_flatMap] at he
    obtain ⟨lib, -, he⟩ := he
    split at he
    · cases he
    · rw [List.mem_filterMap] at he
      obtain ⟨mf, -, hpm⟩ := he
      obtain ⟨data, info, appid, hp, hi, hplay⟩ :=
        processManifest_playtime env _ lib mf e hpm
      obtain ⟨m, hm, hm0⟩ :=
        mergedPlaytime_nonneg _ appid info env.now (hsafe _ data info hp hi)
      unfold playtimeNonneg
      rw [hplay, hm]
      exact decide_eq_true hm0

/-- Witness for C6 (amended): a configuration whose one manifest declares
the well-formed positive total-playtime `"7"`. -/
theorem fetchAllGames_playtime_nonneg_witness :
    (fetchAllGames envGood ["b"]).all playtimeNonneg = true := by
  refine fetchAllGames_playtime_nonneg envGood ["b"] ?_
  intro p v info hp hi htr
  refine ⟨7, ?_, by norm_num⟩
  revert hi
  unfold envGood at hp
  dsimp only at hp
  by_cases hc : (p == "b/steamapps/appmanifest_10.acf") = true
  · rw [if_pos hc] at hp
    rw [← Option.some.inj hp]
    intro hi
    rw [show maniGood.get "AppState" =
      some (VDF.obj [("appid", .str "10"), ("name", .str "Great Game"),
        ("installdir", .str "gg"), ("StateFlags", .str "4"),
        ("PlaytimeForever", .str "7")]) from by
        simp [maniGood, VDF.get, List.lookup]] at hi
    rw [← Option.some.inj hi]
    decide
  · rw [if_neg hc] at hp
    cases hp

/-- Counterexample to claim C6 as stated: a manifest whose
`PlaytimeForever` field is `"-5"` yields a catalog entry with the
negative playtime `-5`. -/
theorem fetchAllGames_negative_playtime :
    (fetchAllGames envC6 ["b"]).map (·.playtime) = [some (-5)] ∧ ((-5 : Int) < 0) :=
  ⟨by decide, by decide⟩

/-- Claim C9: when the installation locator finds no root for the
current platform, the catalog build returns the empty list; the embedded
build is a total function (no error alternative), so absence of an
installation is a normal empty result, not an Error. -/
theorem fetchAllGames_no_roots (env : SteamEnv) (plat : Platform)
    (programFiles programFilesX86 homedir : String) (fsE : String → Bool)
    (h : getSteamPaths plat programFiles programFilesX86 homedir fsE = []) :
    fetchAllGames env (getSteamPaths plat programFiles programFilesX86 homedir fsE) = [] := by
  rw [h]
  rfl

/-- Witness for C9: a filesystem where no candidate root exists. -/
theorem fetchAllGames_no_roots_witness :
    fetchAllGames ⟨fun _ => false, fun _ => [], fun _ => [], fun _ => none,
        fun _ => ThumbResponse.fail, 0⟩
      (getSteamPaths Platform.linux "pf" "pf86" "home" (fun _ => false)) = [] :=
  fetchAllGames_no_roots _ Platform.linux "pf" "pf86" "home" (fun _ => false) (by decide)

theorem optionRel_none {R : α → α → Prop} : optionRel R none none := trivial

theorem forall2_filterMap {α β : Type} {R : β → β → Prop} (f : α → Option β)
    (g : α → Option β) (hfg : ∀ x, optionRel R (f x) (g x)) (l : List α) :
    List.Forall₂ R (l.filterMap f) (l.filterMap g) := by
  induction l with
  | nil => exact List.Forall₂.nil
  | cons x t ih =>
    rw [List.filterMap_cons, List.filterMap_cons]
    have hx := hfg x
    cases hf : f x with
    | none =>
      cases hg : g x with
      | none => exact ih
      | some c =>
        rw [hf, hg] at hx
        cases hx
    | some b =>
      cases hg : g x with
      | none =>
        rw [hf, hg] at hx
        cases hx
      | some c =>
        rw [hf, hg] at hx
        exact List.Forall₂.cons hx ih

theorem forall2_flatMap {α β : Type} {R : β → β → Prop} (f : α → List β)
    (g : α → List β) (hfg : ∀ x, List.Forall₂ R (f x) (g x)) (l : List α) :
    List.Forall₂ R (l.flatMap f) (l.flatMap g) := by
  induction l with
  | nil => exact List.Forall₂.nil
  | cons x t ih =>
    rw [List.flatMap_cons, List.flatMap_cons]
    exact List.rel_append (hfg x) ih

theorem processManifest_rel (env : SteamEnv) (t1 t2 : String → ThumbResponse) (a : String)
    (hag : ∀ x, x ≠ a → t1 x = t2 x) (ups : List (List (String × Int))) (lib mf : String) :
    optionRel (entryAgrees a)
      (processManifest { env with thumbResp := t1 } ups lib mf)
      (processManifest { env with thumbResp := t2 } ups lib mf) := by
  unfold processManifest
  dsimp only
  cases env.parseFile (pathJoin lib mf) with
  | none => exact optionRel_none
  | some data =>
    try dsimp only
    cases data.get "AppState" with
    | none => exact optionRel_none
    | some info =>
      try dsimp only
      split
      · exact optionRel_none
      · try dsimp only
        split
        · exact optionRel_none
        · try dsimp only
          split
          · exact optionRel_none
          · try dsimp only
            split
            · exact optionRel_none
            · refine ⟨rfl, rfl, rfl, rfl, rfl, ?_⟩
              intro hne
              dsimp only at hne ⊢
              rw [hag _ hne]

theorem processBase_rel (env : SteamEnv) (t1 t2 : String → ThumbResponse) (a : String)
    (hag : ∀ x, x ≠ a → t1 x = t2 x) (base : String) :
    List.Forall₂ (entryAgrees a)
      (processBase { env with thumbResp := t1 } base)
      (processBase { env with thumbResp := t2 } base) := by
  unfold processBase
  dsimp only
  refine forall2_flatMap _ _ ?_ _
  intro lib
  split
  · exact List.Forall₂.nil
  · exact forall2_filterMap _ _ (fun mf => processManifest_rel env t1 t2 a hag _ lib mf) _

/-- Claim C10: a thumbnail-lookup failure never raises (the embedded
`fetchThumbnail` is total and yields `none` on a thrown request), leaves
the thumbnail unset, and changing the thumbnail outcome of one identifier
`a` leaves every entry present with identical identifier, title, install
path, playtime and raw fields, and leaves every other identifier's
thumbnail unchanged. -/
theorem fetchAllGames_thumb_isolated (env : SteamEnv) (t1 t2 : String → ThumbResponse)
    (a : String) (steamBases : List String) (hag : ∀ x, x ≠ a → t1 x = t2 x) :
    fetchThumbnail ThumbResponse.fail = none ∧
      List.Forall₂ (entryAgrees a)
        (fetchAllGames { env with thumbResp := t1 } steamBases)
        (fetchAllGames { env with thumbResp := t2 } steamBases) := by
  refine ⟨rfl, ?_⟩
  unfold fetchAllGames
  split
  · exact List.Forall₂.nil
  · exact forall2_flatMap _ _ (fun base => processBase_rel env t1 t2 a hag base) _

/-- Witness for C10: a failing lookup for identifier `10` next to a
successful run; the catalogs correspond entrywise, identifier `20`'s
thumbnail untouched. -/
theorem fetchAllGames_thumb_isolated_witness :
    fetchThumbnail ThumbResponse.fail = none ∧
      List.Forall₂ (entryAgrees "10")
        (fetchAllGames { envW10 with thumbResp := t1W10 } ["b"])
        (fetchAllGames { envW10 with thumbResp := t2W10 } ["b"]) :=
  fetchAllGames_thumb_isolated envW10 t1W10 t2W10 "10" ["b"]
    (fun x hx => by simp [t1W10, t2W10, hx])
